import Mathlib

/-!
Verification of the loginless-backend service (`app.py`).

The service is thin glue over an external object store and metadata table:
`/upload` validates a multipart request, checks serial-code uniqueness, hashes
the security answer with SHA-256, uploads the file, fetches its public URL and
inserts a metadata row (with best-effort object removal on some failures);
`/get_question` and `/retrieve` look rows up by serial code.

The embedding below models:
- SHA-256 over UTF-8 bytes (the meaning of
  `hashlib.sha256(answer.encode()).hexdigest()`), with `Nat` words reduced
  modulo `2 ^ 32`;
- the extension allow-list check `allowed_file`;
- the three HTTP handlers as pure functions from an explicit store state
  (objects in the bucket, rows in the `files` table) and an environment
  describing the external store's responses (which calls raise, the storage
  upload status code, the public-URL lookup result, whether the insert
  returned data, and how the `remove` calls behave) to a response plus the
  resulting store state, the list of attempted object removals, and the
  cleanup log lines printed.

Filename sanitization (werkzeug's `secure_filename`) is an external
collaborator per the specification; it is passed in as an arbitrary function
`sanitize : String → String`.
-/

/-! ## SHA-256 (FIPS 180-4), the model of `hashlib.sha256(...).hexdigest()` -/

/-- The 32-bit word modulus `2 ^ 32`. -/
def w32 : Nat := 4294967296

/-- Right rotation of a 32-bit word by `n` bits. -/
def rotr (n x : Nat) : Nat := ((x >>> n) ||| (x <<< (32 - n))) % w32

/-- `Ch(x, y, z) = (x ∧ y) ⊕ (¬x ∧ z)`; complement taken inside 32 bits. -/
def shaCh (x y z : Nat) : Nat := (x &&& y) ^^^ ((x ^^^ 4294967295) &&& z)

/-- `Maj(x, y, z) = (x ∧ y) ⊕ (x ∧ z) ⊕ (y ∧ z)`. -/
def shaMaj (x y z : Nat) : Nat := (x &&& y) ^^^ (x &&& z) ^^^ (y &&& z)

/-- `Σ₀`. -/
def bsig0 (x : Nat) : Nat := rotr 2 x ^^^ rotr 13 x ^^^ rotr 22 x

/-- `Σ₁`. -/
def bsig1 (x : Nat) : Nat := rotr 6 x ^^^ rotr 11 x ^^^ rotr 25 x

/-- `σ₀`. -/
def ssig0 (x : Nat) : Nat := rotr 7 x ^^^ rotr 18 x ^^^ (x >>> 3)

/-- `σ₁`. -/
def ssig1 (x : Nat) : Nat := rotr 17 x ^^^ rotr 19 x ^^^ (x >>> 10)

/-- The 64 SHA-256 round constants (FIPS 180-4 §4.2.2, written in decimal;
the test vectors below pin them down). -/
def shaK : List Nat :=
  [1116352408, 1899447441, 3049323471, 3921009573, 961987163, 1508970993,
   2453635748, 2870763221, 3624381080, 310598401, 607225278, 1426881987,
   1925078388, 2162078206, 2614888103, 3248222580, 3835390401, 4022224774,
   264347078, 604807628, 770255983, 1249150122, 1555081692, 1996064986,
   2554220882, 2821834349, 2952996808, 3210313671, 3336571891, 3584528711,
   113926993, 338241895, 666307205, 773529912, 1294757372, 1396182291,
   1695183700, 1986661051, 2177026350, 2456956037, 2730485921, 2820302411,
   3259730800, 3345764771, 3516065817, 3600352804, 4094571909, 275423344,
   430227734, 506948616, 659060556, 883997877, 958139571, 1322822218,
   1537002063, 1747873779, 1955562222, 2024104815, 2227730452, 2361852424,
   2428436474, 2756734187, 3204031479, 3329325298]

/-- The eight 32-bit working variables / hash words of SHA-256. -/
structure Sha256State where
  a : Nat
  b : Nat
  c : Nat
  d : Nat
  e : Nat
  f : Nat
  g : Nat
  h : Nat
deriving DecidableEq

/-- The SHA-256 initial hash value. -/
def shaInit : Sha256State :=
  ⟨1779033703, 3144134277, 1013904242, 2773480762, 1359893119, 2600822924, 528734635, 1541459225⟩

/-- UTF-8 encoding of one character, as Python's `str.encode()` produces it. -/
def utf8Bytes (c : Char) : List Nat :=
  let n := c.toNat
  if n < 0x80 then [n]
  else if n < 0x800 then [0xC0 ||| (n >>> 6), 0x80 ||| (n &&& 0x3F)]
  else if n < 0x10000 then
    [0xE0 ||| (n >>> 12), 0x80 ||| ((n >>> 6) &&& 0x3F), 0x80 ||| (n &&& 0x3F)]
  else
    [0xF0 ||| (n >>> 18), 0x80 ||| ((n >>> 12) &&& 0x3F),
     0x80 ||| ((n >>> 6) &&& 0x3F), 0x80 ||| (n &&& 0x3F)]

/-- UTF-8 bytes of a string. -/
def strBytes (s : String) : List Nat := (s.data.map utf8Bytes).flatten

/-- SHA-256 padding: append `0x80`, zeros, and the 64-bit big-endian bit
length, reaching a multiple of 64 bytes. -/
def padBytes (msg : List Nat) : List Nat :=
  let L := msg.length
  let zeros := (119 - L % 64) % 64
  msg ++ (0x80 :: List.replicate zeros 0)
    ++ (List.range 8).map (fun i => ((8 * L) >>> (56 - 8 * i)) % 256)

/-- Big-endian 32-bit words from a byte list (length a multiple of 4). -/
def bytesToWords : List Nat → List Nat
  | b0 :: b1 :: b2 :: b3 :: rest => (((b0 * 256 + b1) * 256 + b2) * 256 + b3) :: bytesToWords rest
  | _ => []

/-- Split a word list (length a multiple of 16) into 16-word blocks. -/
def wordsToBlocks : List Nat → List (List Nat)
  | w0 :: w1 :: w2 :: w3 :: w4 :: w5 :: w6 :: w7 ::
    w8 :: w9 :: w10 :: w11 :: w12 :: w13 :: w14 :: w15 :: rest =>
      [w0, w1, w2, w3, w4, w5, w6, w7, w8, w9, w10, w11, w12, w13, w14, w15]
        :: wordsToBlocks rest
  | _ => []

/-- Extend the message schedule, kept in reverse order, by `n` words. -/
def scheduleExt : Nat → List Nat → List Nat
  | 0, rws => rws
  | n + 1, rws =>
    let next := (ssig1 (rws.getD 1 0) + rws.getD 6 0 + ssig0 (rws.getD 14 0) + rws.getD 15 0) % w32
    scheduleExt n (next :: rws)

/-- The 64-word message schedule of one block. -/
def schedule (block : List Nat) : List Nat := (scheduleExt 48 block.reverse).reverse

/-- One SHA-256 round, consuming a round constant paired with a schedule word. -/
def shaRound (st : Sha256State) (kw : Nat × Nat) : Sha256State :=
  let t1 := (st.h + bsig1 st.e + shaCh st.e st.f st.g + kw.1 + kw.2) % w32
  let t2 := (bsig0 st.a + shaMaj st.a st.b st.c) % w32
  ⟨(t1 + t2) % w32, st.a, st.b, st.c, (st.d + t1) % w32, st.e, st.f, st.g⟩

/-- Compression of one 16-word block into the running hash. -/
def shaCompress (st : Sha256State) (block : List Nat) : Sha256State :=
  let fin := (shaK.zip (schedule block)).foldl shaRound st
  ⟨(st.a + fin.a) % w32, (st.b + fin.b) % w32, (st.c + fin.c) % w32, (st.d + fin.d) % w32,
   (st.e + fin.e) % w32, (st.f + fin.f) % w32, (st.g + fin.g) % w32, (st.h + fin.h) % w32⟩

/-- SHA-256 of a string's UTF-8 bytes, as the eight final hash words. -/
def shaProcess (s : String) : Sha256State :=
  (wordsToBlocks (bytesToWords (padBytes (strBytes s)))).foldl shaCompress shaInit

/-- The sixteen lowercase hexadecimal digits. -/
def hexChars : List Char := "0123456789abcdef".data

/-- Fixed-width (8 hex digits) rendering of a 32-bit word. -/
def toHex8 (x : Nat) : List Char :=
  (List.range 8).map (fun i => hexChars.getD ((x >>> (28 - 4 * i)) % 16) '0')

/-- The 64-character rendering of a final hash state. -/
def stateHex (st : Sha256State) : List Char :=
  toHex8 st.a ++ toHex8 st.b ++ toHex8 st.c ++ toHex8 st.d
    ++ toHex8 st.e ++ toHex8 st.f ++ toHex8 st.g ++ toHex8 st.h

/-- `hashlib.sha256(s.encode()).hexdigest()` (app.py lines 64 and 156). -/
def sha256hex (s : String) : String := (stateHex (shaProcess s)).asString

/-! ## Validation layer (app.py lines 29-33) -/

/-- `ALLOWED_EXTENSIONS` (app.py line 29). -/
def ALLOWED_EXTENSIONS : List String :=
  ["pdf", "txt", "png", "jpg", "jpeg", "gif", "docx", "doc", "xlsx", "xls"]

/-- `filename.rsplit('.', 1)[1]` for a filename containing a dot: the
characters after the last `'.'`. -/
def rsplitAfterDot (cs : List Char) : List Char :=
  (cs.reverse.takeWhile (fun c => c != '.')).reverse

/-- `.lower()` on the extension (ASCII case folding, which is all the
allow-list comparison can distinguish). -/
def lowerString (cs : List Char) : String := (cs.map Char.toLower).asString

/-- `allowed_file` (app.py lines 31-33):
`'.' in filename and filename.rsplit('.', 1)[1].lower() in ALLOWED_EXTENSIONS`. -/
def allowed_file (filename : String) : Bool :=
  filename.data.contains '.'
    && ALLOWED_EXTENSIONS.contains (lowerString (rsplitAfterDot filename.data))

/-- The specification's wording of the allow-list predicate (spec §8): the
filename contains a `'.'` and the lowercased suffix after the last `'.'` is in
the fixed allow-list.  Stated independently of `allowed_file`, by decomposition
of the character list at the last dot. -/
def spec_allowed (f : String) : Prop :=
  ∃ pre suf : List Char, f.data = pre ++ '.' :: suf ∧ suf.contains '.' = false ∧
    (suf.map Char.toLower).asString ∈ ALLOWED_EXTENSIONS

/-! ## Data model and store state -/

/-- One row of the `files` table (spec §3; the insert at app.py lines 93-100).
`uploaded_at` is assigned by the store, never read by the service, and is
omitted. -/
structure FileRecord where
  serial_code : String
  security_question : String
  hashed_answer : String
  file_path : String
  original_filename : String
deriving DecidableEq

/-- The external store: the object paths present in the bucket and the rows of
the `files` table, in insertion order (the order `select ... eq` returns). -/
structure StoreState where
  objects : List String
  rows : List FileRecord
deriving DecidableEq

/-- The distinct responses the `/upload` handler can produce, one constructor
per `return jsonify(...)` site in app.py. -/
inductive UploadResp where
  /-- Line 42: `'No file part'`, 400. -/
  | noFilePart
  /-- Line 50: `'Missing data'`, 400. -/
  | missingData
  /-- Line 53: `'File type not allowed'`, 400. -/
  | typeNotAllowed
  /-- Line 61: `'Database error during serial code check: ...'`, 500. -/
  | dbCheckError
  /-- Line 59: `'Serial code already exists. ...'`, 409. -/
  | duplicate
  /-- Line 83: `'Failed to upload file to storage: ...'`, 500. -/
  | storageUploadFailed
  /-- Line 90: `'Could not get public URL for uploaded file.'`, 500. -/
  | noPublicUrl
  /-- Line 105: `'Failed to store file metadata: ...'`, 500. -/
  | metadataFailed
  /-- Line 113: `'Failed to upload file or metadata: ...'`, 500. -/
  | genericUploadError
  /-- Line 115: `'File uploaded successfully!'` with `fileUrl`, 201. -/
  | success (fileUrl : String)
deriving DecidableEq

/-- The HTTP status paired with each `/upload` response site in app.py. -/
def UploadResp.status : UploadResp → Nat
  | .noFilePart => 400
  | .missingData => 400
  | .typeNotAllowed => 400
  | .dbCheckError => 500
  | .duplicate => 409
  | .storageUploadFailed => 500
  | .noPublicUrl => 500
  | .metadataFailed => 500
  | .genericUploadError => 500
  | .success _ => 201

/-- Either a response returned by the handler, or an exception that escaped
the handler (raised outside any `try` block in it). -/
inductive UploadOutcome where
  | resp (r : UploadResp)
  | unhandled
deriving DecidableEq

/-- Result of one `/upload` request: the outcome, the resulting store state,
the object paths whose removal was attempted (in order), and the cleanup-log
lines printed (app.py line 112). -/
structure UploadResult where
  outcome : UploadOutcome
  state : StoreState
  removalAttempts : List String
  cleanupLogs : List String

/-- Behavior of the external store during one `/upload` request.  Each field
corresponds to one call site in app.py and states whether that call raises
and, when it returns, what it returns. -/
structure UploadEnv where
  /-- The serial-code uniqueness `select` (line 57) raises. -/
  selectRaises : Bool
  /-- Line 64 raises (e.g. `UnicodeEncodeError` from `answer.encode()` on a
  lone-surrogate string).  This line sits outside the `try` that starts at
  line 72. -/
  hashRaises : Bool
  /-- The storage `upload` call (line 76) raises. -/
  uploadRaises : Bool
  /-- `response.status_code` of the storage upload when it returns (line 82);
  `200` is success.  The object is created exactly when this is `200`. -/
  uploadStatus : Nat
  /-- The `get_public_url` call (line 86) raises. -/
  urlRaises : Bool
  /-- `response.data.get('publicUrl')` (line 87): the public URL for a path,
  or `none` when absent. -/
  getPublicUrl : String → Option String
  /-- The metadata `insert` (line 93) raises. -/
  insertRaises : Bool
  /-- When the insert returns, whether `data` is non-empty (line 102); the row
  is written exactly when it is. -/
  insertData : Bool
  /-- The `remove` call at line 104 raises. -/
  remove1Raises : Bool
  /-- When the line-104 `remove` returns, whether it actually removed the
  object (its result is ignored by the code either way). -/
  remove1Ok : Bool
  /-- The `remove` call in the `except` handler (line 110) raises. -/
  remove2Raises : Bool
  /-- When the line-110 `remove` returns, whether it actually removed the
  object. -/
  remove2Ok : Bool

/-- Removal of one object from the bucket. -/
def removeObject (path : String) (st : StoreState) : StoreState :=
  { st with objects := st.objects.filter (fun p => p != path) }

/-- A plain response with no store mutation and no removal attempt. -/
def mkResp (r : UploadResp) (st : StoreState) : UploadResult :=
  ⟨.resp r, st, [], []⟩

/-- The log line printed at app.py line 112. -/
def cleanupLogLine (path : String) : String := "Cleanup failed for " ++ path

/-- The `except` handler at app.py lines 107-113: best-effort removal of the
storage object inside its own `try` (line 110), a log line if that removal
raises (line 112), then the generic 500 response (line 113). -/
def exceptHandler (env : UploadEnv) (path : String) (st : StoreState) : UploadResult :=
  if env.remove2Raises then ⟨.resp .genericUploadError, st, [path], [cleanupLogLine path]⟩
  else if env.remove2Ok then ⟨.resp .genericUploadError, removeObject path st, [path], []⟩
  else ⟨.resp .genericUploadError, st, [path], []⟩

/-- The `/upload` handler `upload_file` (app.py lines 39-115).

Arguments mirror the request: `hasFilePart` is `'file' in request.files`
(line 41), `filename` is `file.filename` (empty string for a missing name),
and the three form fields are `Option String` (`request.form.get` returns
`None` when absent); Python truthiness makes `None` and `""` equally falsy at
line 49.  `sanitize` is werkzeug's `secure_filename` (line 67), an external
collaborator.  The file bytes and content type never influence control flow
and are not modeled; the storage upload result is described by `env`. -/
def upload_file (env : UploadEnv) (sanitize : String → String) (hasFilePart : Bool)
    (filename : String) (serialCode question answer : Option String)
    (st : StoreState) : UploadResult :=
  if !hasFilePart then mkResp .noFilePart st
  else
    match serialCode, question, answer with
    | some sc, some q, some a =>
      if sc == "" || q == "" || a == "" || filename == "" then mkResp .missingData st
      else if !allowed_file filename then mkResp .typeNotAllowed st
      else if env.selectRaises then mkResp .dbCheckError st
      else if st.rows.any (fun r => r.serial_code == sc) then mkResp .duplicate st
      else if env.hashRaises then ⟨.unhandled, st, [], []⟩
      else
        let answer_hash := sha256hex a
        let original_filename := sanitize filename
        let storagePath := sc ++ "/" ++ original_filename
        if env.uploadRaises then exceptHandler env storagePath st
        else if env.uploadStatus != 200 then mkResp .storageUploadFailed st
        else
          let st1 : StoreState := ⟨st.objects ++ [storagePath], st.rows⟩
          if env.urlRaises then exceptHandler env storagePath st1
          else
            match env.getPublicUrl storagePath with
            | none => mkResp .noPublicUrl st1
            | some file_url =>
              if env.insertRaises then exceptHandler env storagePath st1
              else if env.insertData then
                ⟨.resp (.success file_url),
                 ⟨st1.objects, st1.rows ++ [⟨sc, q, answer_hash, file_url, original_filename⟩]⟩,
                 [], []⟩
              else if env.remove1Raises then
                let r := exceptHandler env storagePath st1
                ⟨r.outcome, r.state, storagePath :: r.removalAttempts, r.cleanupLogs⟩
              else if env.remove1Ok then
                ⟨.resp .metadataFailed, removeObject storagePath st1, [storagePath], []⟩
              else
                ⟨.resp .metadataFailed, st1, [storagePath], []⟩
    | _, _, _ => mkResp .missingData st

/-- Responses of the `/get_question` handler (app.py lines 117-132). -/
inductive QuestionResp where
  /-- Line 123: `'Missing serial code'`, 400. -/
  | missingSerial
  /-- Line 128: the stored `security_question`, 200. -/
  | question (securityQuestion : String)
  /-- Line 130: `'Serial code not found'`, 404. -/
  | notFound
  /-- Line 132: `'Database error: ...'`, 500. -/
  | dbError
deriving DecidableEq

/-- The `/get_question` handler `get_security_question` (app.py lines
117-132). -/
def get_security_question (rows : List FileRecord) (serialCode : Option String)
    (selectRaises : Bool) : QuestionResp :=
  match serialCode with
  | some sc =>
    if sc == "" then .missingSerial
    else if selectRaises then .dbError
    else
      match rows.filter (fun r => r.serial_code == sc) with
      | [] => .notFound
      | r :: _ => .question r.security_question
  | none => .missingSerial

/-- Responses of the `/retrieve` handler (app.py lines 135-167). -/
inductive RetrieveResp where
  /-- Line 142: `'Missing data'`, 400. -/
  | missingData
  /-- Line 148: `'Invalid serial code'`, 404. -/
  | invalidSerial
  /-- Line 159: `'Incorrect security answer'`, 403. -/
  | incorrectAnswer
  /-- Line 167: `'Database error: ...'`, 500. -/
  | dbError
  /-- Lines 161-165: `downloadUrl` and `originalFilename`, 200. -/
  | ok (downloadUrl originalFilename : String)
deriving DecidableEq

/-- The HTTP status paired with each `/retrieve` response site. -/
def RetrieveResp.status : RetrieveResp → Nat
  | .missingData => 400
  | .invalidSerial => 404
  | .incorrectAnswer => 403
  | .dbError => 500
  | .ok _ _ => 200

/-- The `error` field of each `/retrieve` response, `none` on success.  The
500 message carries a dynamic suffix in the source; only its fixed prefix is
modeled, which is all any claim compares. -/
def RetrieveResp.errorMessage : RetrieveResp → Option String
  | .missingData => some "Missing data"
  | .invalidSerial => some "Invalid serial code"
  | .incorrectAnswer => some "Incorrect security answer"
  | .dbError => some "Database error"
  | .ok _ _ => none

/-- The `/retrieve` handler `retrieve_file_info` (app.py lines 135-167). -/
def retrieve_file_info (rows : List FileRecord) (serialCode answer : Option String)
    (selectRaises : Bool) : RetrieveResp :=
  match serialCode, answer with
  | some sc, some a =>
    if sc == "" || a == "" then .missingData
    else if selectRaises then .dbError
    else
      match rows.filter (fun r => r.serial_code == sc) with
      | [] => .invalidSerial
      | r :: _ =>
        if r.hashed_answer != sha256hex a then .incorrectAnswer
        else .ok r.file_path r.original_filename
  | _, _ => .missingData

/-! ## Concrete witness data -/

/-- A store whose only row keeps a secret URL. -/
def rowsC6a : List FileRecord := [⟨"SN1", "Q", "not-a-digest", "secret-url", "f.pdf"⟩]

/-- The same store with a different `file_path` and `original_filename`. -/
def rowsC6b : List FileRecord := [⟨"SN1", "Q", "not-a-digest", "other-url", "g.pdf"⟩]

/-- Two rows under the same serial code, as the duplicate-insert race admits. -/
def rowsC10 : List FileRecord :=
  [⟨"SN1", "Q-first", "h-first", "url-first", "f-first.pdf"⟩,
   ⟨"SN1", "Q-second", "h-second", "url-second", "f-second.pdf"⟩]

/-- A store environment in which every external call succeeds. -/
def envOk : UploadEnv :=
  ⟨false, false, false, 200, false, fun p => some ("https://cdn.example/storage/" ++ p),
   false, true, false, true, false, true⟩

/-- The empty store. -/
def stEmpty : StoreState := ⟨[], []⟩

/-- A store already holding a row (and object) for serial code `"SN123"`. -/
def stDup : StoreState :=
  ⟨["SN123/old.pdf"], [⟨"SN123", "Q0", "h0", "u0", "old.pdf"⟩]⟩

/-- A store environment whose public-URL fetch finds no URL. -/
def envNoUrl : UploadEnv :=
  ⟨false, false, false, 200, false, fun _ => none, false, true, false, true, false, true⟩

/-- A store environment in which the metadata insert returns no data and the
first removal attempt (app.py line 104) raises; the second removal (line 110)
then succeeds. -/
def envC3 : UploadEnv :=
  ⟨false, false, false, 200, false, fun p => some ("https://cdn.example/storage/" ++ p),
   false, false, true, false, false, true⟩

/-- A store environment in which the metadata insert returns no data and both
`remove` calls return without raising. -/
def envC3quiet : UploadEnv :=
  ⟨false, false, false, 200, false, fun p => some ("https://cdn.example/storage/" ++ p),
   false, false, false, true, false, true⟩

/-- A store environment in which the hashing step itself raises. -/
def envC4 : UploadEnv :=
  ⟨false, true, false, 200, false, fun p => some ("https://cdn.example/storage/" ++ p),
   false, true, false, true, false, true⟩

/-- A store environment in which the storage upload call raises. -/
def envC4up : UploadEnv :=
  ⟨false, false, true, 200, false, fun p => some ("https://cdn.example/storage/" ++ p),
   false, true, false, true, false, true⟩

/-! ## Hash lemmas -/

/-- FIPS 180-4 test vector: the digest of the empty string. -/
theorem sha256hex_empty :
    sha256hex "" = "e3b0c44298fc1c149afbf4c8996fb92427ae41e4649b934ca495991b7852b855" := by
  decide

/-- FIPS 180-4 test vector: the digest of `"abc"`. -/
theorem sha256hex_abc :
    sha256hex "abc" = "ba7816bf8f01cfea414140de5dae2223b00361a396177a9cb410ff61f20015ad" := by
  decide

theorem length_toHex8 (x : Nat) : (toHex8 x).length = 8 := by
  simp [toHex8]

theorem mem_toHex8 (x : Nat) : ∀ c ∈ toHex8 x, c ∈ hexChars := by
  intro c hc
  simp only [toHex8, List.mem_map] at hc
  obtain ⟨i, _, rfl⟩ := hc
  have hlt : (x >>> (28 - 4 * i)) % 16 < hexChars.length := by
    simp [hexChars]
    exact Nat.mod_lt _ (by norm_num)
  rw [List.getD_eq_getElem hexChars '0' hlt]
  exact List.getElem_mem hlt

theorem stateHex_length (st : Sha256State) : (stateHex st).length = 64 := by
  simp [stateHex, length_toHex8]

theorem mem_stateHex (st : Sha256State) : ∀ c ∈ stateHex st, c ∈ hexChars := by
  intro c hc
  simp only [stateHex, List.mem_append] at hc
  rcases hc with ((((((h | h) | h) | h) | h) | h) | h) | h <;> exact mem_toHex8 _ c h

/-- Claim C9: the answer-hashing function is deterministic — two calls on the
same string produce the same digest, so the digest computed at upload time
equals the one computed at retrieval time — and every digest is exactly 64
hexadecimal characters (a 256-bit digest in hex form). -/
theorem C9_hash_deterministic_hex (x : String) :
    sha256hex x = sha256hex x ∧ (sha256hex x).length = 64 ∧
    ∀ c ∈ (sha256hex x).data, c ∈ hexChars :=
  ⟨rfl, stateHex_length (shaProcess x), fun c hc => mem_stateHex (shaProcess x) c hc⟩

/-! ## The allow-list predicate versus the specification's wording -/

theorem takeWhile_append_all (p : Char → Bool) (l1 l2 : List Char) (x : Char)
    (h : ∀ c ∈ l1, p c = true) (hx : p x = false) :
    (l1 ++ x :: l2).takeWhile p = l1 := by
  induction l1 with
  | nil => simp [List.takeWhile_cons, hx]
  | cons c cs ih =>
    have hc : p c = true := h c (by simp)
    simp only [List.cons_append, List.takeWhile_cons, hc, if_true]
    rw [ih (fun d hd => h d (by simp [hd]))]

theorem lastDotSplit (cs : List Char) (h : cs.contains '.' = true) :
    ∃ pre suf : List Char, cs = pre ++ '.' :: suf ∧ suf.contains '.' = false := by
  induction cs with
  | nil => simp at h
  | cons c rest ih =>
    by_cases hr : rest.contains '.' = true
    · obtain ⟨pre, suf, heq, hns⟩ := ih hr
      exact ⟨c :: pre, suf, by simp [heq], hns⟩
    · have hc : c = '.' := by
        simp only [List.contains_cons, Bool.or_eq_true, beq_iff_eq] at h
        rcases h with h | h
        · exact h.symm
        · exact absurd h hr
      exact ⟨[], rest, by simp [hc], by simpa using hr⟩

theorem rsplitAfterDot_append (pre suf : List Char) (h : suf.contains '.' = false) :
    rsplitAfterDot (pre ++ '.' :: suf) = suf := by
  have hmem : '.' ∉ suf := by simpa using h
  unfold rsplitAfterDot
  rw [List.reverse_append, List.reverse_cons, List.append_assoc, List.singleton_append,
    takeWhile_append_all _ _ _ '.' ?ha ?hx, List.reverse_reverse]
  case ha =>
    intro c hcm
    have : c ≠ '.' := fun hceq => hmem (hceq ▸ List.mem_reverse.mp hcm)
    simpa using this
  case hx => simp

/-- Claim C8: `allowed_file f` holds iff `f` contains a `'.'` and the
lowercased suffix after the last `'.'` is in the fixed allow-list; in
particular a filename with no `'.'`, or ending in `'.'`, is rejected. -/
theorem C8_allowed_file_spec (f : String) :
    (allowed_file f = true ↔ spec_allowed f) ∧
    (f.data.contains '.' = false → allowed_file f = false) ∧
    (∀ pre : List Char, f.data = pre ++ ['.'] → allowed_file f = false) := by
  refine ⟨⟨?mp, ?mpr⟩, ?nodot, ?enddot⟩
  case mp =>
    intro h
    simp only [allowed_file, Bool.and_eq_true] at h
    obtain ⟨hdot, hcont⟩ := h
    obtain ⟨pre, suf, heq, hns⟩ := lastDotSplit f.data hdot
    refine ⟨pre, suf, heq, hns, ?_⟩
    rw [heq, rsplitAfterDot_append pre suf hns] at hcont
    simpa [lowerString] using hcont
  case mpr =>
    rintro ⟨pre, suf, heq, hns, hmem⟩
    simp only [allowed_file, Bool.and_eq_true]
    refine ⟨by rw [heq]; simp, ?_⟩
    rw [heq, rsplitAfterDot_append pre suf hns]
    simpa [lowerString] using hmem
  case nodot =>
    intro h
    simp only [allowed_file, h, Bool.false_and]
  case enddot =>
    intro pre heq
    have hempty : ALLOWED_EXTENSIONS.contains (lowerString []) = false := by decide
    simp only [allowed_file]
    rw [heq, rsplitAfterDot_append pre [] (by decide), hempty, Bool.and_false]

/-- Witness for C8 at concrete filenames: an upper-case allowed extension is
accepted and satisfies the spec predicate; a dotless name and a name ending in
`'.'` are rejected. -/
theorem C8_allowed_file_spec_witness :
    spec_allowed "report.PDF" ∧ allowed_file "noext" = false ∧ allowed_file "bad." = false :=
  ⟨(C8_allowed_file_spec "report.PDF").1.mp (by decide),
   (C8_allowed_file_spec "noext").2.1 (by decide),
   (C8_allowed_file_spec "bad.").2.2 ['b', 'a', 'd'] (by decide)⟩

/-! ## Retrieval claims -/

/-- Claim C7: retrieval with a serial code matching no stored row fails with
the not-found error (404), which is distinguishable from the wrong-answer
error (403): different statuses and different error messages. -/
theorem C7_unknown_serial_distinct (rows : List FileRecord) (sc a : String)
    (hsc : (sc == "") = false) (ha : (a == "") = false)
    (hnone : rows.filter (fun r => r.serial_code == sc) = []) :
    retrieve_file_info rows (some sc) (some a) false = .invalidSerial ∧
    RetrieveResp.status .invalidSerial = 404 ∧
    RetrieveResp.status .incorrectAnswer = 403 ∧
    RetrieveResp.status .invalidSerial ≠ RetrieveResp.status .incorrectAnswer ∧
    RetrieveResp.errorMessage .invalidSerial ≠ RetrieveResp.errorMessage .incorrectAnswer := by
  refine ⟨?_, rfl, rfl, by decide, by decide⟩
  simp [retrieve_file_info, hsc, ha, hnone]

/-- Witness for C7: an empty store, serial `"SN9"`. -/
theorem C7_unknown_serial_distinct_witness :
    retrieve_file_info [] (some "SN9") (some "x") false = .invalidSerial ∧
    RetrieveResp.status .invalidSerial = 404 ∧
    RetrieveResp.status .incorrectAnswer = 403 ∧
    RetrieveResp.status .invalidSerial ≠ RetrieveResp.status .incorrectAnswer ∧
    RetrieveResp.errorMessage .invalidSerial ≠ RetrieveResp.errorMessage .incorrectAnswer :=
  C7_unknown_serial_distinct [] "SN9" "x" (by decide) (by decide) (by decide)

/-- Claim C6: when the candidate answer's hash differs from the first matching
row's `hashed_answer`, retrieval fails with the incorrect-answer error (403),
and the response is identical for any other store whose first matching row has
the same `hashed_answer` — in particular it is independent of the stored
`file_path` and `original_filename`, which are never revealed. -/
theorem C6_wrong_answer_no_leak (rows rows2 : List FileRecord) (sc a : String)
    (r r2 : FileRecord) (rest rest2 : List FileRecord)
    (hsc : (sc == "") = false) (ha : (a == "") = false)
    (hf : rows.filter (fun x => x.serial_code == sc) = r :: rest)
    (hf2 : rows2.filter (fun x => x.serial_code == sc) = r2 :: rest2)
    (hsame : r2.hashed_answer = r.hashed_answer)
    (hwrong : r.hashed_answer ≠ sha256hex a) :
    retrieve_file_info rows (some sc) (some a) false = .incorrectAnswer ∧
    retrieve_file_info rows2 (some sc) (some a) false
      = retrieve_file_info rows (some sc) (some a) false ∧
    RetrieveResp.status .incorrectAnswer = 403 ∧
    RetrieveResp.errorMessage .incorrectAnswer = some "Incorrect security answer" := by
  have hb : (r.hashed_answer != sha256hex a) = true := bne_iff_ne.mpr hwrong
  have hb2 : (r2.hashed_answer != sha256hex a) = true := by rw [hsame]; exact hb
  have h1 : retrieve_file_info rows (some sc) (some a) false = .incorrectAnswer := by
    simp [retrieve_file_info, hsc, ha, hf, hb]
  have h2 : retrieve_file_info rows2 (some sc) (some a) false = .incorrectAnswer := by
    simp [retrieve_file_info, hsc, ha, hf2, hb2]
  exact ⟨h1, h2.trans h1.symm, rfl, rfl⟩

/-- Witness for C6: a wrong guess gets 403 from both stores. -/
theorem C6_wrong_answer_no_leak_witness :
    retrieve_file_info rowsC6a (some "SN1") (some "guess") false = .incorrectAnswer ∧
    retrieve_file_info rowsC6b (some "SN1") (some "guess") false
      = retrieve_file_info rowsC6a (some "SN1") (some "guess") false ∧
    RetrieveResp.status .incorrectAnswer = 403 ∧
    RetrieveResp.errorMessage .incorrectAnswer = some "Incorrect security answer" :=
  C6_wrong_answer_no_leak rowsC6a rowsC6b "SN1" "guess"
    ⟨"SN1", "Q", "not-a-digest", "secret-url", "f.pdf"⟩
    ⟨"SN1", "Q", "not-a-digest", "other-url", "g.pdf"⟩ [] []
    (by decide) (by decide) (by decide) (by decide) (by decide) (by decide)

/-- Claim C10: with several rows under one serial code, both the
security-question lookup and retrieval act on the first row the query
returns: the question shown, the hash compared, and the returned URL and
filename all come from that row; the remaining rows are ignored. -/
theorem C10_first_row_wins (rows : List FileRecord) (sc a : String) (r : FileRecord)
    (rest : List FileRecord)
    (hsc : (sc == "") = false) (ha : (a == "") = false)
    (hf : rows.filter (fun x => x.serial_code == sc) = r :: rest) :
    get_security_question rows (some sc) false = .question r.security_question ∧
    retrieve_file_info rows (some sc) (some a) false =
      (if r.hashed_answer = sha256hex a then .ok r.file_path r.original_filename
       else .incorrectAnswer) := by
  constructor
  · simp [get_security_question, hsc, hf]
  · by_cases heq : r.hashed_answer = sha256hex a
    · have hb : (r.hashed_answer != sha256hex a) = false := by simp [heq]
      simp [retrieve_file_info, hsc, ha, hf, hb, heq]
    · have hb : (r.hashed_answer != sha256hex a) = true := bne_iff_ne.mpr heq
      simp [retrieve_file_info, hsc, ha, hf, hb, heq]

/-- Witness for C10: both lookups act on the first of the two rows. -/
theorem C10_first_row_wins_witness :
    get_security_question rowsC10 (some "SN1") false = .question "Q-first" ∧
    retrieve_file_info rowsC10 (some "SN1") (some "pw") false =
      (if ("h-first" : String) = sha256hex "pw" then .ok "url-first" "f-first.pdf"
       else .incorrectAnswer) :=
  C10_first_row_wins rowsC10 "SN1" "pw"
    ⟨"SN1", "Q-first", "h-first", "url-first", "f-first.pdf"⟩
    [⟨"SN1", "Q-second", "h-second", "url-second", "f-second.pdf"⟩]
    (by decide) (by decide) (by decide)

/-! ## Upload claims -/

theorem exceptHandler_outcome (env : UploadEnv) (path : String) (st : StoreState) :
    (exceptHandler env path st).outcome = .resp .genericUploadError := by
  unfold exceptHandler
  split
  · rfl
  · split <;> rfl

theorem exceptHandler_attempts (env : UploadEnv) (path : String) (st : StoreState) :
    (exceptHandler env path st).removalAttempts = [path] := by
  unfold exceptHandler
  split
  · rfl
  · split <;> rfl

/-- Claim C2: an upload whose serial code already has a row fails with the
duplicate error (409) and performs no object-store mutation: the store state
is returned unchanged, no removal is attempted, and no log line is printed. -/
theorem C2_duplicate_no_mutation (env : UploadEnv) (sanitize : String → String)
    (fn sc q a : String) (st : StoreState)
    (hv : (sc == "" || q == "" || a == "" || fn == "") = false)
    (hallow : allowed_file fn = true)
    (hsel : env.selectRaises = false)
    (hdup : st.rows.any (fun r => r.serial_code == sc) = true) :
    upload_file env sanitize true fn (some sc) (some q) (some a) st
      = ⟨.resp .duplicate, st, [], []⟩ ∧
    UploadResp.duplicate.status = 409 := by
  refine ⟨?_, rfl⟩
  simp [upload_file, hv, hallow, hsel, hdup, mkResp]

/-- Witness for C2: uploading again under `"SN123"` leaves `stDup` intact. -/
theorem C2_duplicate_no_mutation_witness :
    upload_file envOk id true "report.pdf" (some "SN123") (some "What city?") (some "Paris") stDup
      = ⟨.resp .duplicate, stDup, [], []⟩ ∧
    UploadResp.duplicate.status = 409 :=
  C2_duplicate_no_mutation envOk id "report.pdf" "SN123" "What city?" "Paris" stDup
    (by decide) (by decide) (by decide) (by decide)

/-- Claim C5: when the object upload succeeds but the public-URL fetch returns
no URL, the upload fails with 500 and attempts no removal: the object stays in
the bucket (orphaned) and no row is written — asymmetric with the
metadata-insert failure branch, where removal of the same path is attempted. -/
theorem C5_missing_url_orphan (env : UploadEnv) (sanitize : String → String)
    (fn sc q a u : String) (st : StoreState)
    (hv : (sc == "" || q == "" || a == "" || fn == "") = false)
    (hallow : allowed_file fn = true)
    (hsel : env.selectRaises = false)
    (hdup : st.rows.any (fun r => r.serial_code == sc) = false)
    (hhash : env.hashRaises = false)
    (hupr : env.uploadRaises = false)
    (hstat : env.uploadStatus = 200)
    (hurlr : env.urlRaises = false)
    (hurl : env.getPublicUrl (sc ++ "/" ++ sanitize fn) = none) :
    upload_file env sanitize true fn (some sc) (some q) (some a) st
      = ⟨.resp .noPublicUrl, ⟨st.objects ++ [sc ++ "/" ++ sanitize fn], st.rows⟩, [], []⟩ ∧
    UploadResp.noPublicUrl.status = 500 ∧
    (upload_file
        { env with getPublicUrl := fun _ => some u, insertRaises := false,
                   insertData := false, remove1Raises := false, remove1Ok := false }
        sanitize true fn (some sc) (some q) (some a) st).removalAttempts
      = [sc ++ "/" ++ sanitize fn] := by
  refine ⟨?_, rfl, ?_⟩
  · simp [upload_file, hv, hallow, hsel, hdup, hhash, hupr, hstat, hurlr, hurl, mkResp]
  · simp [upload_file, hv, hallow, hsel, hdup, hhash, hupr, hstat, hurlr]

/-- Witness for C5: the uploaded object is left orphaned under `"SN123"`. -/
theorem C5_missing_url_orphan_witness :
    upload_file envNoUrl id true "report.pdf" (some "SN123") (some "What city?") (some "Paris")
        stEmpty
      = ⟨.resp .noPublicUrl, ⟨[] ++ ["SN123" ++ "/" ++ id "report.pdf"], []⟩, [], []⟩ ∧
    UploadResp.noPublicUrl.status = 500 ∧
    (upload_file
        { envNoUrl with getPublicUrl := fun _ => some "u0", insertRaises := false,
                        insertData := false, remove1Raises := false, remove1Ok := false }
        id true "report.pdf" (some "SN123") (some "What city?") (some "Paris")
        stEmpty).removalAttempts
      = ["SN123" ++ "/" ++ id "report.pdf"] :=
  C5_missing_url_orphan envNoUrl id "report.pdf" "SN123" "What city?" "Paris" "u0" stEmpty
    (by decide) (by decide) (by decide) (by decide) (by decide) (by decide) (by decide)
    (by decide) (by decide)

/-- Counterexample to C3 as stated: with a raising `remove`, the caller sees
the generic upload error of app.py line 113, not the metadata-write error of
line 105, and the removal failure is not logged (the log stays empty): the
line-104 `remove` sits inside the outer `try`, so its exception escalates to
the generic handler. -/
theorem C3_counterexample :
    (upload_file envC3 id true "report.pdf" (some "SN123") (some "What city?") (some "Paris")
        stEmpty).outcome = .resp .genericUploadError ∧
    (upload_file envC3 id true "report.pdf" (some "SN123") (some "What city?") (some "Paris")
        stEmpty).outcome ≠ .resp .metadataFailed ∧
    (upload_file envC3 id true "report.pdf" (some "SN123") (some "What city?") (some "Paris")
        stEmpty).cleanupLogs = [] :=
  ⟨by decide, by decide, by decide⟩

/-- Claim C3 (amended): when the metadata insert returns no data after the
object was uploaded, removal of the just-uploaded object is attempted first in
every case.  If that removal returns (however unsuccessfully), its result is
ignored — not logged — and the caller sees the metadata-write failure (500).
But if the removal raises, the outer `except` handler catches it, attempts
removal a second time, and the caller sees the generic `UploadError` (500)
instead of the metadata-write failure. -/
theorem C3_metadata_insert_cleanup (env : UploadEnv) (sanitize : String → String)
    (fn sc q a u : String) (st : StoreState) (res : UploadResult)
    (hres : upload_file env sanitize true fn (some sc) (some q) (some a) st = res)
    (hv : (sc == "" || q == "" || a == "" || fn == "") = false)
    (hallow : allowed_file fn = true)
    (hsel : env.selectRaises = false)
    (hdup : st.rows.any (fun r => r.serial_code == sc) = false)
    (hhash : env.hashRaises = false)
    (hupr : env.uploadRaises = false)
    (hstat : env.uploadStatus = 200)
    (hurlr : env.urlRaises = false)
    (hurl : env.getPublicUrl (sc ++ "/" ++ sanitize fn) = some u)
    (hinsr : env.insertRaises = false)
    (hins : env.insertData = false) :
    res.removalAttempts.head? = some (sc ++ "/" ++ sanitize fn) ∧
    (env.remove1Raises = false →
      res.outcome = .resp .metadataFailed ∧
      res.removalAttempts = [sc ++ "/" ++ sanitize fn] ∧ res.cleanupLogs = []) ∧
    (env.remove1Raises = true →
      res.outcome = .resp .genericUploadError ∧
      res.removalAttempts = [sc ++ "/" ++ sanitize fn, sc ++ "/" ++ sanitize fn]) ∧
    UploadResp.metadataFailed.status = 500 := by
  subst res
  cases hrem1 : env.remove1Raises with
  | false =>
    cases hrem1ok : env.remove1Ok with
    | false =>
      simp [upload_file, hv, hallow, hsel, hdup, hhash, hupr, hstat, hurlr, hurl, hinsr, hins,
        hrem1, hrem1ok, UploadResp.status]
    | true =>
      simp [upload_file, hv, hallow, hsel, hdup, hhash, hupr, hstat, hurlr, hurl, hinsr, hins,
        hrem1, hrem1ok, UploadResp.status]
  | true =>
    simp [upload_file, hv, hallow, hsel, hdup, hhash, hupr, hstat, hurlr, hurl, hinsr, hins,
      hrem1, exceptHandler_outcome, exceptHandler_attempts, UploadResp.status]

/-- Witness for the amended C3 at a concrete input with a non-raising
removal. -/
theorem C3_metadata_insert_cleanup_witness :
    ((upload_file envC3quiet id true "report.pdf" (some "SN123") (some "What city?")
        (some "Paris") stEmpty).removalAttempts.head?
      = some ("SN123" ++ "/" ++ id "report.pdf")) ∧
    (envC3quiet.remove1Raises = false →
      (upload_file envC3quiet id true "report.pdf" (some "SN123") (some "What city?")
          (some "Paris") stEmpty).outcome = .resp .metadataFailed ∧
      (upload_file envC3quiet id true "report.pdf" (some "SN123") (some "What city?")
          (some "Paris") stEmpty).removalAttempts = ["SN123" ++ "/" ++ id "report.pdf"] ∧
      (upload_file envC3quiet id true "report.pdf" (some "SN123") (some "What city?")
          (some "Paris") stEmpty).cleanupLogs = []) ∧
    (envC3quiet.remove1Raises = true →
      (upload_file envC3quiet id true "report.pdf" (some "SN123") (some "What city?")
          (some "Paris") stEmpty).outcome = .resp .genericUploadError ∧
      (upload_file envC3quiet id true "report.pdf" (some "SN123") (some "What city?")
          (some "Paris") stEmpty).removalAttempts
        = ["SN123" ++ "/" ++ id "report.pdf", "SN123" ++ "/" ++ id "report.pdf"]) ∧
    UploadResp.metadataFailed.status = 500 :=
  C3_metadata_insert_cleanup envC3quiet id "report.pdf" "SN123" "What city?" "Paris"
    "https://cdn.example/storage/SN123/report.pdf" stEmpty _ rfl
    (by decide) (by decide) (by decide) (by decide) (by decide) (by decide) (by decide)
    (by decide) (by decide) (by decide) (by decide)

/-- Counterexample to C4 as stated: an exception at step 3 (answer hashing,
app.py line 64) is raised outside the `try` block that starts at line 72, so
it propagates unhandled — no removal is attempted and no `UploadError`
response is produced. -/
theorem C4_counterexample :
    (upload_file envC4 id true "report.pdf" (some "SN123") (some "What city?") (some "Paris")
        stEmpty).outcome = .unhandled ∧
    (upload_file envC4 id true "report.pdf" (some "SN123") (some "What city?") (some "Paris")
        stEmpty).outcome ≠ .resp .genericUploadError ∧
    (upload_file envC4 id true "report.pdf" (some "SN123") (some "What city?") (some "Paris")
        stEmpty).removalAttempts = [] :=
  ⟨by decide, by decide, by decide⟩

/-- Claim C4 (amended): any unexpected exception during steps 5-7 — the
storage upload, the public-URL fetch, or the metadata insert, the calls inside
the `try` block of app.py lines 72-113 — triggers a best-effort removal of the
uploaded object's path and fails with the generic `UploadError` (500) rather
than propagating; exceptions in steps 3-4 (answer hashing, filename
sanitization, lines 63-70) are outside that `try` block and propagate
unhandled. -/
theorem C4_try_block_exception_cleanup (env : UploadEnv) (sanitize : String → String)
    (fn sc q a : String) (st : StoreState) (res : UploadResult)
    (hres : upload_file env sanitize true fn (some sc) (some q) (some a) st = res)
    (hv : (sc == "" || q == "" || a == "" || fn == "") = false)
    (hallow : allowed_file fn = true)
    (hsel : env.selectRaises = false)
    (hdup : st.rows.any (fun r => r.serial_code == sc) = false)
    (hhash : env.hashRaises = false)
    (hexc : env.uploadRaises = true
      ∨ (env.uploadRaises = false ∧ env.uploadStatus = 200 ∧ env.urlRaises = true)
      ∨ (env.uploadRaises = false ∧ env.uploadStatus = 200 ∧ env.urlRaises = false
          ∧ (∃ u, env.getPublicUrl (sc ++ "/" ++ sanitize fn) = some u)
          ∧ env.insertRaises = true)) :
    res.outcome = .resp .genericUploadError ∧
    res.removalAttempts = [sc ++ "/" ++ sanitize fn] ∧
    UploadResp.genericUploadError.status = 500 := by
  subst res
  rcases hexc with h | ⟨h1, h2, h3⟩ | ⟨h1, h2, h3, ⟨u, h4⟩, h5⟩
  · simp [upload_file, hv, hallow, hsel, hdup, hhash, h,
      exceptHandler_outcome, exceptHandler_attempts, UploadResp.status]
  · simp [upload_file, hv, hallow, hsel, hdup, hhash, h1, h2, h3,
      exceptHandler_outcome, exceptHandler_attempts, UploadResp.status]
  · simp [upload_file, hv, hallow, hsel, hdup, hhash, h1, h2, h3, h4, h5,
      exceptHandler_outcome, exceptHandler_attempts, UploadResp.status]

/-- Witness for the amended C4 at a concrete input with a raising storage
upload. -/
theorem C4_try_block_exception_cleanup_witness :
    (upload_file envC4up id true "report.pdf" (some "SN123") (some "What city?") (some "Paris")
        stEmpty).outcome = .resp .genericUploadError ∧
    (upload_file envC4up id true "report.pdf" (some "SN123") (some "What city?") (some "Paris")
        stEmpty).removalAttempts = ["SN123" ++ "/" ++ id "report.pdf"] ∧
    UploadResp.genericUploadError.status = 500 :=
  C4_try_block_exception_cleanup envC4up id "report.pdf" "SN123" "What city?" "Paris"
    stEmpty _ rfl (by decide) (by decide) (by decide) (by decide) (by decide)
    (Or.inl (by decide))

theorem filter_nil_of_any_false {α : Type} (p : α → Bool) (l : List α)
    (h : l.any p = false) : l.filter p = [] :=
  List.filter_eq_nil_iff.mpr (List.any_eq_false.mp h)

/-- Inversion of a successful upload: the validation and uniqueness check must
have passed, and the resulting store gained exactly the row
`{serial_code, security_question, hashed_answer, file_path, original_filename}`
inserted at app.py lines 93-100, whose `file_path` is the returned URL. -/
theorem upload_success_inv (env : UploadEnv) (sanitize : String → String)
    (fn sc q a u : String) (st : StoreState) (res : UploadResult)
    (hres : upload_file env sanitize true fn (some sc) (some q) (some a) st = res)
    (hsucc : res.outcome = .resp (.success u)) :
    (sc == "") = false ∧ (a == "") = false ∧
    (st.rows.any fun r => r.serial_code == sc) = false ∧
    res.state.rows = st.rows ++ [⟨sc, q, sha256hex a, u, sanitize fn⟩] := by
  subst res
  by_cases hv : (sc == "" || q == "" || a == "" || fn == "") = true
  · simp [upload_file, hv, mkResp] at hsucc
  rw [Bool.not_eq_true] at hv
  by_cases hallow : allowed_file fn = true
  swap
  · rw [Bool.not_eq_true] at hallow
    simp [upload_file, hv, hallow, mkResp] at hsucc
  by_cases hsel : env.selectRaises = true
  · simp [upload_file, hv, hallow, hsel, mkResp] at hsucc
  rw [Bool.not_eq_true] at hsel
  by_cases hdup : (st.rows.any fun r => r.serial_code == sc) = true
  · simp [upload_file, hv, hallow, hsel, hdup, mkResp] at hsucc
  rw [Bool.not_eq_true] at hdup
  by_cases hhash : env.hashRaises = true
  · simp [upload_file, hv, hallow, hsel, hdup, hhash] at hsucc
  rw [Bool.not_eq_true] at hhash
  by_cases hupr : env.uploadRaises = true
  · simp [upload_file, hv, hallow, hsel, hdup, hhash, hupr, exceptHandler_outcome] at hsucc
  rw [Bool.not_eq_true] at hupr
  by_cases hstat : (env.uploadStatus != 200) = true
  · simp [upload_file, hv, hallow, hsel, hdup, hhash, hupr, hstat, mkResp] at hsucc
  rw [Bool.not_eq_true] at hstat
  by_cases hurlr : env.urlRaises = true
  · simp [upload_file, hv, hallow, hsel, hdup, hhash, hupr, hstat, hurlr,
      exceptHandler_outcome] at hsucc
  rw [Bool.not_eq_true] at hurlr
  cases hurl : env.getPublicUrl (sc ++ "/" ++ sanitize fn) with
  | none =>
    simp [upload_file, hv, hallow, hsel, hdup, hhash, hupr, hstat, hurlr, hurl, mkResp] at hsucc
  | some fu =>
    by_cases hinsr : env.insertRaises = true
    · simp [upload_file, hv, hallow, hsel, hdup, hhash, hupr, hstat, hurlr, hurl, hinsr,
        exceptHandler_outcome] at hsucc
    rw [Bool.not_eq_true] at hinsr
    by_cases hins : env.insertData = true
    swap
    · rw [Bool.not_eq_true] at hins
      by_cases hrem : env.remove1Raises = true
      · simp [upload_file, hv, hallow, hsel, hdup, hhash, hupr, hstat, hurlr, hurl, hinsr,
          hins, hrem, exceptHandler_outcome] at hsucc
      · rw [Bool.not_eq_true] at hrem
        cases hremok : env.remove1Ok <;>
          simp [upload_file, hv, hallow, hsel, hdup, hhash, hupr, hstat, hurlr, hurl, hinsr,
            hins, hrem, hremok] at hsucc
    · have heq : fu = u := by
        simp [upload_file, hv, hallow, hsel, hdup, hhash, hupr, hstat, hurlr, hurl, hinsr,
          hins] at hsucc
        exact hsucc
      subst heq
      simp only [Bool.or_eq_false_iff] at hv
      refine ⟨hv.1.1.1, hv.1.2, hdup, ?_⟩
      simp [upload_file, hv.1.1.1, hv.1.1.2, hv.1.2, hv.2, hallow, hsel, hdup, hhash, hupr,
        hstat, hurlr, hurl, hinsr, hins]

/-- Claim C1: after a successful upload with serial code `sc`, answer `a` and
returned public URL `u`, retrieval with `sc` and `a` succeeds (200) and
returns exactly the stored `file_path` — the URL `u`, unchanged — together
with the stored (sanitized) `original_filename`. -/
theorem C1_upload_then_retrieve (env : UploadEnv) (sanitize : String → String)
    (fn sc q a u : String) (st : StoreState) (res : UploadResult)
    (hres : upload_file env sanitize true fn (some sc) (some q) (some a) st = res)
    (hsucc : res.outcome = .resp (.success u)) :
    retrieve_file_info res.state.rows (some sc) (some a) false = .ok u (sanitize fn) ∧
    (retrieve_file_info res.state.rows (some sc) (some a) false).status = 200 := by
  obtain ⟨hsc, ha, hdup, hrows⟩ :=
    upload_success_inv env sanitize fn sc q a u st res hres hsucc
  have hfil : res.state.rows.filter (fun x => x.serial_code == sc)
      = [⟨sc, q, sha256hex a, u, sanitize fn⟩] := by
    rw [hrows, List.filter_append, filter_nil_of_any_false _ _ hdup]
    simp
  have hok : retrieve_file_info res.state.rows (some sc) (some a) false
      = .ok u (sanitize fn) := by
    simp [retrieve_file_info, hsc, ha, hfil]
  exact ⟨hok, by rw [hok]; rfl⟩

/-- Witness for C1: a full round trip through an all-success store under
serial code `"SN123"` with answer `"Paris"`. -/
theorem C1_upload_then_retrieve_witness :
    retrieve_file_info
        (upload_file envOk id true "report.pdf" (some "SN123") (some "What city?")
          (some "Paris") stEmpty).state.rows (some "SN123") (some "Paris") false
      = .ok "https://cdn.example/storage/SN123/report.pdf" "report.pdf" ∧
    (retrieve_file_info
        (upload_file envOk id true "report.pdf" (some "SN123") (some "What city?")
          (some "Paris") stEmpty).state.rows (some "SN123") (some "Paris") false).status
      = 200 :=
  C1_upload_then_retrieve envOk id "report.pdf" "SN123" "What city?" "Paris"
    "https://cdn.example/storage/SN123/report.pdf" stEmpty _ rfl (by decide)
